import Mathlib

/-!
Verification of the `mqtt_moisture_reporter` configuration header and the
minimal core it implies (settings store, command router, connection
supervisor).  Constants are embedded directly from
`src/mqtt_moisture_reporter.h`; components whose code is not in the
repository are modelled from the specification, as marked.
-/

namespace MqttMoistureReporter

/-- Header constant `#define VALID_SETTINGS_FLAG 0xDAB0` -/
def VALID_SETTINGS_FLAG : Nat := 0xDAB0

/-- Header constant `#define SSID_SIZE 100` -/
def SSID_SIZE : Nat := 100

/-- Header constant `#define PASSWORD_SIZE 50` -/
def PASSWORD_SIZE : Nat := 50

/-- Header constant `#define ADDRESS_SIZE 30` -/
def ADDRESS_SIZE : Nat := 30

/-- Header constant `#define USERNAME_SIZE 50` -/
def USERNAME_SIZE : Nat := 50

/-- Header constant `#define MQTT_CLIENTID_SIZE 25` -/
def MQTT_CLIENTID_SIZE : Nat := 25

/-- Header constant `#define MQTT_TOPIC_SIZE 150` -/
def MQTT_TOPIC_SIZE : Nat := 150

/-- Header constant `#define MQTT_TOPIC_MOISTURE "percent"` -/
def MQTT_TOPIC_MOISTURE : String := "percent"

/-- Header constant `#define MQTT_TOPIC_READING "value"` -/
def MQTT_TOPIC_READING : String := "value"

/-- Header constant `#define MQTT_TOPIC_PERIOD "period"` -/
def MQTT_TOPIC_PERIOD : String := "period"

/-- Header constant `#define MQTT_CLIENT_ID_ROOT "UltrasonicDetector"` -/
def MQTT_CLIENT_ID_ROOT : String := "UltrasonicDetector"

/-- Header constant `#define MQTT_TOPIC_COMMAND_REQUEST "command"` -/
def MQTT_TOPIC_COMMAND_REQUEST : String := "command"

/-- Header constant `#define MQTT_PAYLOAD_SETTINGS_COMMAND "settings"` -/
def MQTT_PAYLOAD_SETTINGS_COMMAND : String := "settings"

/-- Header constant `#define MQTT_PAYLOAD_RESET_PULSE_COMMAND "resetPulseCounter"` -/
def MQTT_PAYLOAD_RESET_PULSE_COMMAND : String := "resetPulseCounter"

/-- Header constant `#define MQTT_PAYLOAD_REBOOT_COMMAND "reboot"` -/
def MQTT_PAYLOAD_REBOOT_COMMAND : String := "reboot"

/-- Header constant `#define MQTT_PAYLOAD_VERSION_COMMAND "version"` -/
def MQTT_PAYLOAD_VERSION_COMMAND : String := "version"

/-- Header constant `#define MQTT_PAYLOAD_STATUS_COMMAND "status"` -/
def MQTT_PAYLOAD_STATUS_COMMAND : String := "status"

/-- Header constant `#define JSON_STATUS_SIZE SSID_SIZE+PASSWORD_SIZE+USERNAME_SIZE+MQTT_TOPIC_SIZE+50`,
exactly the arithmetic expression of the header. -/
def JSON_STATUS_SIZE : Nat :=
  SSID_SIZE + PASSWORD_SIZE + USERNAME_SIZE + MQTT_TOPIC_SIZE + 50

/-- Header constant `#define PUBLISH_DELAY 400` (milliseconds). -/
def PUBLISH_DELAY : Nat := 400

/-- Header constant `#define MQTT_CONNECTION_REFUSED -2` -/
def MQTT_CONNECTION_REFUSED : Int := -2

/-- Header constant `#define MQTT_CONNECTION_TIMEOUT -1` -/
def MQTT_CONNECTION_TIMEOUT : Int := -1

/-- Header constant `#define MQTT_SUCCESS 0` -/
def MQTT_SUCCESS : Int := 0

/-- Header constant `#define MQTT_UNACCEPTABLE_PROTOCOL_VERSION 1` -/
def MQTT_UNACCEPTABLE_PROTOCOL_VERSION : Int := 1

/-- Header constant `#define MQTT_IDENTIFIER_REJECTED 2` -/
def MQTT_IDENTIFIER_REJECTED : Int := 2

/-- Header constant `#define MQTT_SERVER_UNAVAILABLE 3` -/
def MQTT_SERVER_UNAVAILABLE : Int := 3

/-- Header constant `#define MQTT_BAD_USER_NAME_OR_PASSWORD 4` -/
def MQTT_BAD_USER_NAME_OR_PASSWORD : Int := 4

/-- Header constant `#define MQTT_NOT_AUTHORIZED 5` -/
def MQTT_NOT_AUTHORIZED : Int := 5

/-- The eight connection-result codes of the ConnectionSupervisor error
taxonomy, in the order they appear in the header. -/
def mqttErrorCodes : List Int :=
  [MQTT_CONNECTION_REFUSED, MQTT_CONNECTION_TIMEOUT, MQTT_SUCCESS,
   MQTT_UNACCEPTABLE_PROTOCOL_VERSION, MQTT_IDENTIFIER_REJECTED,
   MQTT_SERVER_UNAVAILABLE, MQTT_BAD_USER_NAME_OR_PASSWORD,
   MQTT_NOT_AUTHORIZED]

/-- The four topic suffixes the device appends to its base topic. -/
def topicSuffixes : List String :=
  [MQTT_TOPIC_MOISTURE, MQTT_TOPIC_READING, MQTT_TOPIC_PERIOD,
   MQTT_TOPIC_COMMAND_REQUEST]

/-- The five recognized command payload strings. -/
def recognizedPayloads : List String :=
  [MQTT_PAYLOAD_SETTINGS_COMMAND, MQTT_PAYLOAD_RESET_PULSE_COMMAND,
   MQTT_PAYLOAD_REBOOT_COMMAND, MQTT_PAYLOAD_VERSION_COMMAND,
   MQTT_PAYLOAD_STATUS_COMMAND]

/-- Modelled from the spec: the persisted `Settings` record (the struct
itself is not in the provided source; §3 of the spec gives its fields).
Each string field lives in a fixed C buffer of the corresponding
`*_SIZE` capacity; `reportPeriod` is the reporting period in seconds. -/
structure Settings where
  ssid : String
  password : String
  brokerAddress : String
  brokerUsername : String
  mqttClientId : String
  reportPeriod : Nat
deriving DecidableEq

/-- Truncation of a string to its first `n` characters, working directly
on the character list (equal to `String.take`, see `strTake_eq_take`). -/
def strTake (s : String) (n : Nat) : String :=
  String.mk (s.data.take n)

/-- Modelled from the spec: truncation of every string field to fit its
fixed buffer with a terminating null, i.e. at most capacity − 1
characters ("every string field is null-terminated within its bound"). -/
def truncateSettings (s : Settings) : Settings :=
  { ssid := strTake s.ssid (SSID_SIZE - 1)
    password := strTake s.password (PASSWORD_SIZE - 1)
    brokerAddress := strTake s.brokerAddress (ADDRESS_SIZE - 1)
    brokerUsername := strTake s.brokerUsername (USERNAME_SIZE - 1)
    mqttClientId := strTake s.mqttClientId (MQTT_CLIENTID_SIZE - 1)
    reportPeriod := s.reportPeriod }

/-- Modelled from the spec: compile-time default settings for an
unconfigured device; the client identifier defaults to the fixed root
name plus a per-device suffix, bounded to its buffer. -/
def defaultSettings (suffix : String) : Settings :=
  { ssid := ""
    password := ""
    brokerAddress := ""
    brokerUsername := ""
    mqttClientId := strTake (MQTT_CLIENT_ID_ROOT ++ suffix) (MQTT_CLIENTID_SIZE - 1)
    reportPeriod := 10 }

/-- Modelled from the spec: the fixed-size block in non-volatile storage,
holding the settings fields and the two-byte validity marker. -/
structure StoredRecord where
  marker : Nat
  fields : Settings
deriving DecidableEq

/-- Modelled from the spec: `save(Settings)` truncates any string field
exceeding its bound, writes all fields, then writes the validity marker
last. -/
def save (s : Settings) : StoredRecord :=
  { marker := VALID_SETTINGS_FLAG, fields := truncateSettings s }

/-- Modelled from the spec: `load()` reads the persisted record; if the
validity marker does not match `VALID_SETTINGS_FLAG`, it returns a
Settings populated entirely with compile-time defaults. -/
def load (suffix : String) (rec : StoredRecord) : Settings :=
  if rec.marker = VALID_SETTINGS_FLAG then rec.fields
  else defaultSettings suffix

/-- Transient command value, never persisted (spec §3). -/
inductive Command where
  | ShowSettings
  | ResetCounter
  | Reboot
  | ShowVersion
  | ShowStatus
  | Unknown (payload : String)
deriving DecidableEq

/-- Modelled from the spec: classification of an inbound command payload;
exact, case-sensitive comparison against the five recognized strings,
anything else is `Unknown`. -/
def parseCommand (payload : String) : Command :=
  if payload = MQTT_PAYLOAD_SETTINGS_COMMAND then Command.ShowSettings
  else if payload = MQTT_PAYLOAD_RESET_PULSE_COMMAND then Command.ResetCounter
  else if payload = MQTT_PAYLOAD_REBOOT_COMMAND then Command.Reboot
  else if payload = MQTT_PAYLOAD_VERSION_COMMAND then Command.ShowVersion
  else if payload = MQTT_PAYLOAD_STATUS_COMMAND then Command.ShowStatus
  else Command.Unknown payload

/-- In-memory device state handled by the command router (spec §3
ReportingState plus the settings record). -/
structure DeviceState where
  settings : Settings
  pulseCount : Nat
  lastReading : Nat
deriving DecidableEq

/-- Observable actions of the command router, in order. -/
inductive Event where
  | Publish (topic payload : String)
  | Delay (ms : Nat)
  | Restart
deriving DecidableEq

/-- Modelled from the spec: rendering of the settings as a key/value
status document (§4.1 `describe`). -/
def describe (s : Settings) : String :=
  "ssid=" ++ s.ssid ++ ";broker=" ++ s.brokerAddress ++
  ";user=" ++ s.brokerUsername ++ ";clientId=" ++ s.mqttClientId ++
  ";period=" ++ toString s.reportPeriod

/-- Modelled from the spec: the CommandRouter dispatch table (§4.2).
Every publish is followed by the fixed `PUBLISH_DELAY` settle delay
before the next network or sleep operation; `reboot` restarts the
device; unknown payloads are a no-op. -/
def handleCommand (base : String) (cmd : Command) (st : DeviceState) :
    DeviceState × List Event :=
  match cmd with
  | Command.ShowSettings =>
      (st, [Event.Publish (base ++ MQTT_TOPIC_COMMAND_REQUEST) (describe st.settings),
            Event.Delay PUBLISH_DELAY])
  | Command.ResetCounter =>
      ({ st with pulseCount := 0 },
       [Event.Publish (base ++ MQTT_TOPIC_COMMAND_REQUEST) "pulse counter reset",
        Event.Delay PUBLISH_DELAY])
  | Command.Reboot =>
      (st, [Event.Restart])
  | Command.ShowVersion =>
      (st, [Event.Publish (base ++ MQTT_TOPIC_COMMAND_REQUEST) "version",
            Event.Delay PUBLISH_DELAY])
  | Command.ShowStatus =>
      (st, [Event.Publish (base ++ MQTT_TOPIC_COMMAND_REQUEST)
              ("reading=" ++ toString st.lastReading ++
               ";period=" ++ toString st.settings.reportPeriod),
            Event.Delay PUBLISH_DELAY])
  | Command.Unknown _ => (st, [])

/-- An event trace is publish-settled when every `Publish` is immediately
followed by a `Delay PUBLISH_DELAY` before anything else happens. -/
def publishSettled : List Event → Bool
  | [] => true
  | Event.Publish _ _ :: Event.Delay ms :: rest =>
      ms == PUBLISH_DELAY && publishSettled rest
  | Event.Publish _ _ :: _ => false
  | _ :: rest => publishSettled rest

/-- The list-level truncation used in the model agrees with the standard
`String.take`. -/
theorem strTake_eq_take (s : String) (n : Nat) : strTake s n = s.take n :=
  (String.take_eq s n).symm

/-- Taking at most `n` characters of a string that already has at most `n`
characters leaves it unchanged. -/
theorem strTake_of_le (s : String) (n : Nat) (h : s.length ≤ n) :
    strTake s n = s := by
  have h1 : s.1.length ≤ n := h
  rw [strTake, List.take_of_length_le h1]

/-- The length of `strTake s n` is the minimum of `n` and the length of
`s`. -/
theorem strTake_length (s : String) (n : Nat) :
    (strTake s n).length = min n s.length := by
  show (s.1.take n).length = min n s.length
  rw [List.length_take]
  rfl

/-- Claim C1 counterexample: `JSON_STATUS_SIZE` is not the sum of the five
Settings field capacities (100 + 50 + 30 + 50 + 25) plus 50, i.e. not
305 bytes. -/
theorem C1_counterexample :
    JSON_STATUS_SIZE ≠
      SSID_SIZE + PASSWORD_SIZE + ADDRESS_SIZE + USERNAME_SIZE +
        MQTT_CLIENTID_SIZE + 50 ∧
    JSON_STATUS_SIZE ≠ 305 := by decide

/-- Claim C1 (amended): `JSON_STATUS_SIZE` equals
`SSID_SIZE + PASSWORD_SIZE + USERNAME_SIZE + MQTT_TOPIC_SIZE + 50`,
which is 400 bytes; the formula omits the broker address and client id
capacities and includes the MQTT topic buffer capacity instead. -/
theorem C1_json_status_size :
    JSON_STATUS_SIZE = 400 ∧
    JSON_STATUS_SIZE =
      SSID_SIZE + PASSWORD_SIZE + USERNAME_SIZE + MQTT_TOPIC_SIZE + 50 ∧
    JSON_STATUS_SIZE ≥
      SSID_SIZE + PASSWORD_SIZE + USERNAME_SIZE + 50 := by decide

/-- Claim C2: the Settings field capacities are exactly SSID 100 bytes,
password 50, broker address 30, username 50, client identifier 25; and
every truncated field fits its buffer with room for a null terminator. -/
theorem C2_field_capacities (s : Settings) :
    SSID_SIZE = 100 ∧ PASSWORD_SIZE = 50 ∧ ADDRESS_SIZE = 30 ∧
    USERNAME_SIZE = 50 ∧ MQTT_CLIENTID_SIZE = 25 ∧
    (truncateSettings s).ssid.length < SSID_SIZE ∧
    (truncateSettings s).password.length < PASSWORD_SIZE ∧
    (truncateSettings s).brokerAddress.length < ADDRESS_SIZE ∧
    (truncateSettings s).brokerUsername.length < USERNAME_SIZE ∧
    (truncateSettings s).mqttClientId.length < MQTT_CLIENTID_SIZE := by
  have key : ∀ (t : String) (n : Nat), (strTake t n).length ≤ n := by
    intro t n
    rw [strTake_length]
    exact Nat.min_le_left _ _
  refine ⟨rfl, rfl, rfl, rfl, rfl, ?_, ?_, ?_, ?_, ?_⟩
  · exact Nat.lt_of_le_of_lt (key s.ssid (SSID_SIZE - 1))
      (show SSID_SIZE - 1 < SSID_SIZE by decide)
  · exact Nat.lt_of_le_of_lt (key s.password (PASSWORD_SIZE - 1))
      (show PASSWORD_SIZE - 1 < PASSWORD_SIZE by decide)
  · exact Nat.lt_of_le_of_lt (key s.brokerAddress (ADDRESS_SIZE - 1))
      (show ADDRESS_SIZE - 1 < ADDRESS_SIZE by decide)
  · exact Nat.lt_of_le_of_lt (key s.brokerUsername (USERNAME_SIZE - 1))
      (show USERNAME_SIZE - 1 < USERNAME_SIZE by decide)
  · exact Nat.lt_of_le_of_lt (key s.mqttClientId (MQTT_CLIENTID_SIZE - 1))
      (show MQTT_CLIENTID_SIZE - 1 < MQTT_CLIENTID_SIZE by decide)

/-- Claim C3: the validity marker is the fixed sentinel `0xDAB0`, which
fits in two bytes, and `load` treats a stored record as valid (returning
its fields) iff the marker equals this exact value, otherwise returning
the defaults. -/
theorem C3_validity_marker (rec : StoredRecord) (suffix : String) :
    VALID_SETTINGS_FLAG = 0xDAB0 ∧
    VALID_SETTINGS_FLAG ≤ 0xFFFF ∧
    (rec.marker = VALID_SETTINGS_FLAG → load suffix rec = rec.fields) ∧
    (rec.marker ≠ VALID_SETTINGS_FLAG → load suffix rec = defaultSettings suffix) := by
  refine ⟨rfl, by decide, ?_, ?_⟩
  · intro h
    simp [load, h]
  · intro h
    simp [load, h]

/-- Claim C3 witness at a valid record (marker `0xDAB0`) and an invalid
one (marker `0`). -/
theorem C3_witness :
    load "A" { marker := 0xDAB0,
               fields := { ssid := "s", password := "p", brokerAddress := "b",
                           brokerUsername := "u", mqttClientId := "c",
                           reportPeriod := 7 } } =
      { ssid := "s", password := "p", brokerAddress := "b",
        brokerUsername := "u", mqttClientId := "c", reportPeriod := 7 } ∧
    load "A" { marker := 0,
               fields := { ssid := "s", password := "p", brokerAddress := "b",
                           brokerUsername := "u", mqttClientId := "c",
                           reportPeriod := 7 } } = defaultSettings "A" := by
  constructor
  · exact (C3_validity_marker
      { marker := 0xDAB0,
        fields := { ssid := "s", password := "p", brokerAddress := "b",
                    brokerUsername := "u", mqttClientId := "c",
                    reportPeriod := 7 } } "A").2.2.1 rfl
  · exact (C3_validity_marker
      { marker := 0,
        fields := { ssid := "s", password := "p", brokerAddress := "b",
                    brokerUsername := "u", mqttClientId := "c",
                    reportPeriod := 7 } } "A").2.2.2 (by decide)

/-- Claim C4: the five recognized payload strings map to their commands,
and any payload outside the recognized set is classified `Unknown`, whose
dispatch changes nothing in the device state and publishes nothing. -/
theorem C4_command_classification (p base : String) (st : DeviceState) :
    parseCommand MQTT_PAYLOAD_SETTINGS_COMMAND = Command.ShowSettings ∧
    parseCommand MQTT_PAYLOAD_RESET_PULSE_COMMAND = Command.ResetCounter ∧
    parseCommand MQTT_PAYLOAD_REBOOT_COMMAND = Command.Reboot ∧
    parseCommand MQTT_PAYLOAD_VERSION_COMMAND = Command.ShowVersion ∧
    parseCommand MQTT_PAYLOAD_STATUS_COMMAND = Command.ShowStatus ∧
    (p ∉ recognizedPayloads →
      parseCommand p = Command.Unknown p ∧
      (handleCommand base (parseCommand p) st).1 = st ∧
      (handleCommand base (parseCommand p) st).2 = []) := by
  refine ⟨rfl, rfl, rfl, rfl, rfl, ?_⟩
  intro h
  simp only [recognizedPayloads, List.mem_cons, List.not_mem_nil, or_false,
    not_or] at h
  obtain ⟨h1, h2, h3, h4, h5⟩ := h
  have hp : parseCommand p = Command.Unknown p := by
    simp [parseCommand, h1, h2, h3, h4, h5]
  refine ⟨hp, ?_, ?_⟩ <;> rw [hp] <;> rfl

/-- Claim C4 witness at the unrecognized payload `"bogus"`. -/
theorem C4_witness :
    parseCommand "bogus" = Command.Unknown "bogus" ∧
    (handleCommand "dev/"
      (parseCommand "bogus")
      { settings := defaultSettings "", pulseCount := 3, lastReading := 9 }).1 =
      { settings := defaultSettings "", pulseCount := 3, lastReading := 9 } := by
  have h := (C4_command_classification "bogus" "dev/"
    { settings := defaultSettings "", pulseCount := 3, lastReading := 9 }).2.2.2.2.2
    (by decide)
  exact ⟨h.1, h.2.1⟩

/-- Claim C5: the topic suffixes are exactly `percent` (sensor
percentage), `value` (raw reading), `period` (reporting period) and
`command` (inbound command topic). -/
theorem C5_topic_suffixes :
    MQTT_TOPIC_MOISTURE = "percent" ∧
    MQTT_TOPIC_READING = "value" ∧
    MQTT_TOPIC_PERIOD = "period" ∧
    MQTT_TOPIC_COMMAND_REQUEST = "command" ∧
    topicSuffixes = ["percent", "value", "period", "command"] :=
  ⟨rfl, rfl, rfl, rfl, rfl⟩

/-- Claim C6: `PUBLISH_DELAY` is 400 milliseconds, and in the event trace
of every command dispatch each publish is immediately followed by a
settle delay of exactly `PUBLISH_DELAY` before anything else happens. -/
theorem C6_publish_settle (base : String) (cmd : Command) (st : DeviceState) :
    PUBLISH_DELAY = 400 ∧
    publishSettled (handleCommand base cmd st).2 = true := by
  refine ⟨rfl, ?_⟩
  cases cmd <;> rfl

/-- Claim C7: the eight error codes are pairwise distinct, success is 0,
and every failure code is nonzero. -/
theorem C7_error_taxonomy :
    mqttErrorCodes = [-2, -1, 0, 1, 2, 3, 4, 5] ∧
    mqttErrorCodes.Nodup ∧
    mqttErrorCodes.length = 8 ∧
    MQTT_SUCCESS = 0 ∧
    MQTT_CONNECTION_REFUSED ≠ 0 ∧ MQTT_CONNECTION_TIMEOUT ≠ 0 ∧
    MQTT_UNACCEPTABLE_PROTOCOL_VERSION ≠ 0 ∧ MQTT_IDENTIFIER_REJECTED ≠ 0 ∧
    MQTT_SERVER_UNAVAILABLE ≠ 0 ∧ MQTT_BAD_USER_NAME_OR_PASSWORD ≠ 0 ∧
    MQTT_NOT_AUTHORIZED ≠ 0 := by decide

/-- Claim C8: the default client identifier is the fixed root
`UltrasonicDetector` (18 characters) followed by the per-device suffix;
the root plus a null terminator fits in the 25-byte buffer, leaving at
most 6 bytes for the suffix, and any suffix of at most 6 characters is
kept whole. -/
theorem C8_client_id (suffix : String) (h : suffix.length ≤ 6) :
    MQTT_CLIENT_ID_ROOT = "UltrasonicDetector" ∧
    MQTT_CLIENT_ID_ROOT.length = 18 ∧
    MQTT_CLIENT_ID_ROOT.length + 1 ≤ MQTT_CLIENTID_SIZE ∧
    MQTT_CLIENTID_SIZE - (MQTT_CLIENT_ID_ROOT.length + 1) = 6 ∧
    (defaultSettings suffix).mqttClientId = MQTT_CLIENT_ID_ROOT ++ suffix ∧
    (defaultSettings suffix).mqttClientId.length + 1 ≤ MQTT_CLIENTID_SIZE := by
  have hroot : MQTT_CLIENT_ID_ROOT.length = 18 := rfl
  have hsize : MQTT_CLIENTID_SIZE = 25 := rfl
  have hlen : (MQTT_CLIENT_ID_ROOT ++ suffix).length ≤ MQTT_CLIENTID_SIZE - 1 := by
    rw [String.length_append, hroot, hsize]
    omega
  have htake : (defaultSettings suffix).mqttClientId =
      MQTT_CLIENT_ID_ROOT ++ suffix :=
    strTake_of_le _ _ hlen
  refine ⟨rfl, hroot, ?_, ?_, htake, ?_⟩
  · rw [hroot, hsize]
    omega
  · rw [hroot, hsize]
  · rw [htake, String.length_append, hroot, hsize]
    omega

/-- Claim C8 witness at the concrete suffix `"123456"` (6 characters). -/
theorem C8_witness :
    ("123456" : String).length ≤ 6 ∧
    (defaultSettings "123456").mqttClientId =
      MQTT_CLIENT_ID_ROOT ++ "123456" := by
  exact ⟨by decide, (C8_client_id "123456" (by decide)).2.2.2.2.1⟩

/-- Claim C9: loading immediately after saving returns the saved record
with each string field truncated to its bound and the validity marker
present; an absent or mismatched marker makes load return exactly the
defaults regardless of the other stored bytes. -/
theorem C9_roundtrip (s : Settings) (suffix : String) (rec : StoredRecord)
    (h : rec.marker ≠ VALID_SETTINGS_FLAG) :
    load suffix (save s) = truncateSettings s ∧
    (save s).marker = VALID_SETTINGS_FLAG ∧
    load suffix rec = defaultSettings suffix := by
  refine ⟨?_, rfl, ?_⟩
  · simp [load, save]
  · simp [load, h]

/-- Claim C9 witness: a concrete save/load round trip and a concrete
corrupt-marker load. -/
theorem C9_witness :
    load "Z" (save { ssid := "net", password := "pw", brokerAddress := "host",
                     brokerUsername := "user", mqttClientId := "id",
                     reportPeriod := 60 }) =
      truncateSettings { ssid := "net", password := "pw",
                         brokerAddress := "host", brokerUsername := "user",
                         mqttClientId := "id", reportPeriod := 60 } ∧
    load "Z" { marker := 0,
               fields := { ssid := "net", password := "pw",
                           brokerAddress := "host", brokerUsername := "user",
                           mqttClientId := "id", reportPeriod := 60 } } =
      defaultSettings "Z" := by
  have h := C9_roundtrip
    { ssid := "net", password := "pw", brokerAddress := "host",
      brokerUsername := "user", mqttClientId := "id", reportPeriod := 60 }
    "Z"
    { marker := 0,
      fields := { ssid := "net", password := "pw", brokerAddress := "host",
                  brokerUsername := "user", mqttClientId := "id",
                  reportPeriod := 60 } }
    (by decide)
  exact ⟨h.1, h.2.2⟩

/-- Claim C10: the topic buffer capacity `MQTT_TOPIC_SIZE` is exactly 150
bytes, the four suffixes have lengths 7, 5, 6 and 7 (so the longest is 7
characters), and each suffix together with a null terminator fits within
the buffer. -/
theorem C10_topic_buffer :
    MQTT_TOPIC_SIZE = 150 ∧
    MQTT_TOPIC_MOISTURE.length = 7 ∧
    MQTT_TOPIC_READING.length = 5 ∧
    MQTT_TOPIC_PERIOD.length = 6 ∧
    MQTT_TOPIC_COMMAND_REQUEST.length = 7 ∧
    MQTT_TOPIC_MOISTURE.length + 1 ≤ MQTT_TOPIC_SIZE ∧
    MQTT_TOPIC_READING.length + 1 ≤ MQTT_TOPIC_SIZE ∧
    MQTT_TOPIC_PERIOD.length + 1 ≤ MQTT_TOPIC_SIZE ∧
    MQTT_TOPIC_COMMAND_REQUEST.length + 1 ≤ MQTT_TOPIC_SIZE := by decide

end MqttMoistureReporter
